import Mathlib

/-!
Shallow embedding of the Shoreway Exim Scrapper client.

The repository ships two versions of the React client:
* `src/unnamed/part_000` ("V1"), which adds session-accumulation support, and
* `src/frontend/src/App.js` ("V2"), the plain single-run client.

Profiles are JS objects read by string key; a field that is `null` or absent
is modelled as `none`.  Network calls are modelled by passing the eventual
response (`Except ErrInfo _`) into the handler; each handler returns the list
of HTTP requests it dispatches together with the successor component state.
-/

namespace Client

/-- An extracted company profile: a JS object read by string key.
`none` models both a `null` field and an absent key. -/
def Profile : Type := String → Option String

/-- The `detail`-or-`message` information carried by a failed axios call:
`e?.response?.data?.detail` (absent or a string) and `e.message`. -/
structure ErrInfo where
  detail : Option String
  message : String
deriving Repr

/-- `e?.response?.data?.detail || e.message` — JS `||` falls through on a
missing detail, and also on an empty-string detail (falsy). -/
def errMsg (e : ErrInfo) : String :=
  match e.detail with
  | some d => if d = "" then e.message else d
  | none => e.message

/-- The response of `POST /scrape/url` and `POST /scrape/name`:
`{job_id, data}`. -/
structure ScrapeResp where
  job_id : String
  data : Option Profile

/-- One row-level error of a bulk upload response: `{row_index, message}`. -/
structure BulkErr where
  row_index : Nat
  message : String
deriving Repr, DecidableEq

/-- The response of `POST /bulk/upload`: `{job_id, rows, errors}`. -/
structure BulkInfo where
  job_id : String
  rows : Nat
  errors : List BulkErr
deriving Repr, DecidableEq

/-- The client's `job` state: `setJob(res.data)` stores `{job_id, data}` after
a scrape, and `setJob({job_id: res.data.job_id})` (no data) after a bulk run. -/
structure Job where
  job_id : String
  data : Option Profile

/-- The backend API routes addressed by the client (every request URL is
`API ++ suffix` with `API = BACKEND_URL ++ "/api"`). -/
inductive Endpoint where
  | root
  | scrapeUrl
  | scrapeName
  | bulkUpload
  | sessionStart
  | sessionAddUrl
  | sessionAddName
  | sessionStatus (sid : String)
  | sessionDownload (sid : String)
  | download (jobId : String)
deriving Repr, DecidableEq

/-- URL suffix of each endpoint relative to the `API` base. -/
def Endpoint.suffix : Endpoint → String
  | .root => "/"
  | .scrapeUrl => "/scrape/url"
  | .scrapeName => "/scrape/name"
  | .bulkUpload => "/bulk/upload"
  | .sessionStart => "/session/start"
  | .sessionAddUrl => "/session/add/url"
  | .sessionAddName => "/session/add/name"
  | .sessionStatus sid => "/session/" ++ sid
  | .sessionDownload sid => "/session/" ++ sid ++ "/download"
  | .download jobId => "/download/" ++ jobId

/-- A request body: a JSON object of string fields, a multipart `FormData`
of string fields, or no body. -/
inductive Body where
  | json (fields : List (String × String))
  | form (fields : List (String × String))
  | empty
deriving Repr, DecidableEq

/-- One HTTP request dispatched by the client. -/
structure Request where
  method : String
  endpoint : Endpoint
  body : Body
deriving Repr, DecidableEq

/-- The client component state (the `useState` hooks of `App`).  V2 has no
session hooks; its runs simply never touch the three session fields. -/
structure ClientState where
  method : String
  url : String
  company : String
  geo : String
  mode : String
  loading : Bool
  data : Option Profile
  job : Option Job
  bulkInfo : Option BulkInfo
  error : String
  file : Option String
  sessionId : String
  addToSession : Bool
  sessionCount : Nat

/-- Initial hook values (identical in both versions; V2 simply lacks the
three session hooks, whose V1 initial values are kept here). -/
def initState : ClientState :=
  { method := "url", url := "", company := "", geo := "", mode := "realtime",
    loading := false, data := none, job := none, bulkInfo := none,
    error := "", file := none,
    sessionId := "", addToSession := false, sessionCount := 0 }

/-! ### The result table (`pairs` and `Pair`) -/

/-- The fixed field order of the result table in V1
(`src/unnamed/part_000`, the `order` array inside `pairs`). -/
def fieldOrderV1 : List String :=
  ["Company Name", "Website", "Industry", "Description", "Services",
   "Address", "Country", "State", "City", "Postal Code", "Phone", "Email",
   "Social Media Links", "Founders/Key People", "Verification Status"]

/-- The fixed field order of the result table in V2
(`src/frontend/src/App.js`, the `order` array inside `pairs`). -/
def fieldOrderV2 : List String :=
  ["Company Name", "Website", "Industry", "Description", "Services",
   "Address", "Country", "State", "City", "Postal Code", "Phone", "Email",
   "Social Media Links", "Founders/Key People", "Verification Status"]

/-- V1 `pairs`: `[]` when `data` is null, else `order.map(k => ({k, v: data[k]}))`. -/
def pairsV1 (d : Option Profile) : List (String × Option String) :=
  match d with
  | none => []
  | some d => fieldOrderV1.map (fun k => (k, d k))

/-- V2 `pairs` (same computation, transcribed from `App.js`). -/
def pairsV2 (d : Option Profile) : List (String × Option String) :=
  match d with
  | none => []
  | some d => fieldOrderV2.map (fun k => (k, d k))

/-- The value cell of `Pair`: `v || "—"` — a falsy value (null, absent, or
the empty string) renders as the placeholder dash. -/
def cellOf (v : Option String) : String :=
  match v with
  | none => "—"
  | some s => if s = "" then "—" else s

/-- The `Pair` component: one `<tr>` per call, `(key cell, value cell)`. -/
def PairRow (k : String) (v : Option String) : String × String :=
  (k, cellOf v)

/-- The rendered result table of V1: `pairs.map(({k,v}) => <Pair k v/>)`. -/
def renderTableV1 (d : Profile) : List (String × String) :=
  (pairsV1 (some d)).map (fun kv => PairRow kv.1 kv.2)

/-- The rendered result table of V2. -/
def renderTableV2 (d : Profile) : List (String × String) :=
  (pairsV2 (some d)).map (fun kv => PairRow kv.1 kv.2)

/-! ### The progress display (`ProgressInline`) -/

/-- The four fixed steps of V1's progress display (`steps` in
`src/unnamed/part_000`): `(k, t)` pairs. -/
def stepsV1 : List (String × String) :=
  [("discover", "Finding website"), ("crawl", "Crawling pages"),
   ("ai", "Extracting structured data"), ("export", "Exporting Excel")]

/-- The four fixed steps of V2's progress display (`steps` in `App.js`). -/
def stepsV2 : List (String × String) :=
  [("discover", "Finding website"), ("crawl", "Crawling pages"),
   ("ai", "Extracting with AI"), ("export", "Exporting Excel")]

/-- The local state of `ProgressInline` while `running`: the interval's
`sec` counter and the `p` / `idx` hook values. -/
structure ProgState where
  sec : ℚ
  p : ℤ
  idx : ℤ
deriving Repr, DecidableEq

/-- One 250ms interval callback: `sec += 0.25`, then
`ratio = min(1, sec/15)`, `p = floor(ratio*100)`,
`idx = min(steps.length - 1, floor(ratio*steps.length))` with
`steps.length = 4` (identical numeric code in both versions). -/
def progTick (s : ProgState) : ProgState :=
  let sec := s.sec + 1 / 4
  let frac := min 1 (sec / 15)
  { sec := sec, p := ⌊frac * 100⌋, idx := min 3 ⌊frac * 4⌋ }

/-- The progress state after `n` interval ticks (each tick is 250ms of
elapsed wall-clock time), starting from the `useState(0)` initial values. -/
def progAfter (n : Nat) : ProgState :=
  progTick^[n] { sec := 0, p := 0, idx := 0 }

/-! ### The run handlers -/

/-- The responses a session-mode run may consume: `/session/start`,
`/session/add/...`, and the `GET /session/{sid}` count refresh
(`count` may be absent in the JSON, hence `Option Nat`). -/
structure SessEnv where
  startResp : Except ErrInfo String
  addResp : Except ErrInfo Unit
  countResp : Except ErrInfo (Option Nat)

/-- The common prologue of every run:
`setLoading(true); setError(""); setData(null); setJob(null); setBulkInfo(null)`. -/
def clearedStart (st : ClientState) : ClientState :=
  { st with loading := true, error := "", data := none, job := none,
            bulkInfo := none }

/-- V1 `ensureSession`: returns the held `session_id` if non-empty (JS
truthiness) without any request; otherwise `POST /session/start`, record and
return the new id; a failed start propagates as an exception. -/
def ensureSessionV1 (st : ClientState) (startResp : Except ErrInfo String) :
    List Request × Except ErrInfo (ClientState × String) :=
  if st.sessionId = "" then
    let req : Request := { method := "POST", endpoint := .sessionStart, body := .empty }
    match startResp with
    | .ok sid => ([req], .ok ({ st with sessionId := sid }, sid))
    | .error e => ([req], .error e)
  else
    ([], .ok (st, st.sessionId))

/-- The `GET /session/{sid}` request of V1 `refreshSession`. -/
def refreshReq (sid : String) : Request :=
  { method := "GET", endpoint := .sessionStatus sid, body := .empty }

/-- V1 `runUrl`: session branch posts a form to `/session/add/url` then
refreshes the count; plain branch posts `{url, mode}` to `/scrape/url` and
stores the response; any thrown error is caught into `error`; `loading` is
reset in `finally`. -/
def runUrlV1 (st : ClientState) (env : SessEnv)
    (resp : Except ErrInfo ScrapeResp) : List Request × ClientState :=
  let st0 := clearedStart st
  if st.addToSession then
    match ensureSessionV1 st0 env.startResp with
    | (reqs, .error e) => (reqs, { st0 with error := errMsg e, loading := false })
    | (reqs, .ok (st1, sid)) =>
      let addReq : Request :=
        { method := "POST", endpoint := .sessionAddUrl,
          body := .form [("session_id", sid), ("url", st.url), ("mode", st.mode)] }
      match env.addResp with
      | .error e => (reqs ++ [addReq], { st1 with error := errMsg e, loading := false })
      | .ok _ =>
        match env.countResp with
        | .error e =>
          (reqs ++ [addReq, refreshReq sid], { st1 with error := errMsg e, loading := false })
        | .ok c =>
          (reqs ++ [addReq, refreshReq sid], { st1 with sessionCount := c.getD 0, loading := false })
  else
    let req : Request :=
      { method := "POST", endpoint := .scrapeUrl,
        body := .json [("url", st.url), ("mode", st.mode)] }
    match resp with
    | .ok r =>
      ([req], { st0 with data := r.data,
                         job := some { job_id := r.job_id, data := r.data },
                         loading := false })
    | .error e => ([req], { st0 with error := errMsg e, loading := false })

/-- V1 `runName`: like `runUrl` with `/session/add/name` resp. `/scrape/name`
and body `{company_name, geography, mode}` (the geography key is always sent,
carrying the possibly-empty `geo` state). -/
def runNameV1 (st : ClientState) (env : SessEnv)
    (resp : Except ErrInfo ScrapeResp) : List Request × ClientState :=
  let st0 := clearedStart st
  if st.addToSession then
    match ensureSessionV1 st0 env.startResp with
    | (reqs, .error e) => (reqs, { st0 with error := errMsg e, loading := false })
    | (reqs, .ok (st1, sid)) =>
      let addReq : Request :=
        { method := "POST", endpoint := .sessionAddName,
          body := .form [("session_id", sid), ("company_name", st.company),
                         ("geography", st.geo), ("mode", st.mode)] }
      match env.addResp with
      | .error e => (reqs ++ [addReq], { st1 with error := errMsg e, loading := false })
      | .ok _ =>
        match env.countResp with
        | .error e =>
          (reqs ++ [addReq, refreshReq sid], { st1 with error := errMsg e, loading := false })
        | .ok c =>
          (reqs ++ [addReq, refreshReq sid], { st1 with sessionCount := c.getD 0, loading := false })
  else
    let req : Request :=
      { method := "POST", endpoint := .scrapeName,
        body := .json [("company_name", st.company), ("geography", st.geo),
                       ("mode", st.mode)] }
    match resp with
    | .ok r =>
      ([req], { st0 with data := r.data,
                         job := some { job_id := r.job_id, data := r.data },
                         loading := false })
    | .error e => ([req], { st0 with error := errMsg e, loading := false })

/-- V1 `runBulk`: no-op without a file; otherwise multipart form
`file` + `mode` to `/bulk/upload`; success stores the whole response in
`bulkInfo` and `{job_id}` in `job`. -/
def runBulkV1 (st : ClientState) (resp : Except ErrInfo BulkInfo) :
    List Request × ClientState :=
  match st.file with
  | none => ([], st)
  | some f =>
    let st0 := clearedStart st
    let req : Request :=
      { method := "POST", endpoint := .bulkUpload,
        body := .form [("file", f), ("mode", st.mode)] }
    match resp with
    | .ok r =>
      ([req], { st0 with bulkInfo := some r,
                         job := some { job_id := r.job_id, data := none },
                         loading := false })
    | .error e => ([req], { st0 with error := errMsg e, loading := false })

/-- The V1 "Start Session" button: `ensureSession` then `refreshSession`;
errors are unhandled (the state simply stops updating). -/
def startClickV1 (st : ClientState) (env : SessEnv) : List Request × ClientState :=
  match ensureSessionV1 st env.startResp with
  | (reqs, .error _) => (reqs, st)
  | (reqs, .ok (st1, sid)) =>
    match env.countResp with
    | .error _ => (reqs ++ [refreshReq sid], st1)
    | .ok c => (reqs ++ [refreshReq sid], { st1 with sessionCount := c.getD 0 })

/-- V2 `runUrl` (transcribed from `src/frontend/src/App.js`): always the
plain scrape, no session branch. -/
def runUrlV2 (st : ClientState) (resp : Except ErrInfo ScrapeResp) :
    List Request × ClientState :=
  let st0 := { st with loading := true, error := "", data := none, job := none,
                       bulkInfo := none }
  let req : Request :=
    { method := "POST", endpoint := .scrapeUrl,
      body := .json [("url", st.url), ("mode", st.mode)] }
  match resp with
  | .ok r =>
    ([req], { st0 with data := r.data,
                       job := some { job_id := r.job_id, data := r.data },
                       loading := false })
  | .error e => ([req], { st0 with error := errMsg e, loading := false })

/-- V2 `runName` (transcribed from `App.js`). -/
def runNameV2 (st : ClientState) (resp : Except ErrInfo ScrapeResp) :
    List Request × ClientState :=
  let st0 := { st with loading := true, error := "", data := none, job := none,
                       bulkInfo := none }
  let req : Request :=
    { method := "POST", endpoint := .scrapeName,
      body := .json [("company_name", st.company), ("geography", st.geo),
                     ("mode", st.mode)] }
  match resp with
  | .ok r =>
    ([req], { st0 with data := r.data,
                       job := some { job_id := r.job_id, data := r.data },
                       loading := false })
  | .error e => ([req], { st0 with error := errMsg e, loading := false })

/-- V2 `runBulk` (transcribed from `App.js`). -/
def runBulkV2 (st : ClientState) (resp : Except ErrInfo BulkInfo) :
    List Request × ClientState :=
  match st.file with
  | none => ([], st)
  | some f =>
    let st0 := { st with loading := true, error := "", data := none, job := none,
                         bulkInfo := none }
    let req : Request :=
      { method := "POST", endpoint := .bulkUpload,
        body := .form [("file", f), ("mode", st.mode)] }
    match resp with
    | .ok r =>
      ([req], { st0 with bulkInfo := some r,
                         job := some { job_id := r.job_id, data := none },
                         loading := false })
    | .error e => ([req], { st0 with error := errMsg e, loading := false })

/-- `downloadHref`: `job ? API/download/job.job_id : "#"` (`api` stands for
the computed `API = BACKEND_URL + "/api"` constant). -/
def downloadHref (api : String) (st : ClientState) : String :=
  match st.job with
  | some j => api ++ "/download/" ++ j.job_id
  | none => "#"

/-- V1 `sessionDownloadHref`: `sessionId ? API/session/{id}/download : "#"`. -/
def sessionDownloadHref (api : String) (st : ClientState) : String :=
  if st.sessionId = "" then "#"
  else api ++ "/session/" ++ st.sessionId ++ "/download"

/-- The bulk results line: `Processed rows: {rows}. ` followed by
`Errors: {n}` exactly when the error list is non-empty (JS truthiness of
`errors?.length`). -/
def bulkSummary (b : BulkInfo) : String :=
  "Processed rows: " ++ toString b.rows ++ ". " ++
    (if b.errors.length = 0 then "" else "Errors: " ++ toString b.errors.length)

/-- Modelled from the spec: the Export Serializer (spec §4.8) is backend code
that is not under `src/` (only the client sources are present).  Per the
spec, `serialize` produces a table whose header row is exactly the fixed
field order and one data row per profile, preserving input order, with null
fields rendered as explicit empty cells. -/
def serialize (profiles : List Profile) : List (List String) :=
  fieldOrderV1 :: profiles.map (fun p => fieldOrderV1.map (fun k => (p k).getD ""))

/-! ### UI events and traces -/

/-- The `POST /session/start` request. -/
def startReq : Request :=
  { method := "POST", endpoint := .sessionStart, body := .empty }

/-- The option values of every `Mode` selector (all three method forms offer
exactly these two options, in both versions). -/
def modeOptions : List String := ["realtime", "deep"]

/-- The input-method toggle values. -/
def methodOptions : List String := ["url", "name", "bulk"]

/-- One user-level event of the V1 client: a setter fired by a form control,
or a run whose network responses are the event's parameters. -/
inductive UIEvent where
  | pickMode (i : Fin modeOptions.length)
  | pickMethod (i : Fin methodOptions.length)
  | setUrl (s : String)
  | setCompany (s : String)
  | setGeo (s : String)
  | setFile (f : Option String)
  | setAddToSession (b : Bool)
  | urlRun (env : SessEnv) (resp : Except ErrInfo ScrapeResp)
  | nameRun (env : SessEnv) (resp : Except ErrInfo ScrapeResp)
  | bulkRun (resp : Except ErrInfo BulkInfo)
  | startClick (env : SessEnv)

/-- The effect of one event: the requests dispatched and the new state. -/
def stepRun (st : ClientState) (e : UIEvent) : List Request × ClientState :=
  match e with
  | .pickMode i => ([], { st with mode := modeOptions.get i })
  | .pickMethod i => ([], { st with method := methodOptions.get i })
  | .setUrl s => ([], { st with url := s })
  | .setCompany s => ([], { st with company := s })
  | .setGeo s => ([], { st with geo := s })
  | .setFile f => ([], { st with file := f })
  | .setAddToSession b => ([], { st with addToSession := b })
  | .urlRun env resp => runUrlV1 st env resp
  | .nameRun env resp => runNameV1 st env resp
  | .bulkRun resp => runBulkV1 st resp
  | .startClick env => startClickV1 st env

/-- Accumulate one event into a trace: requests in chronological order. -/
def traceStep (acc : List Request × ClientState) (e : UIEvent) :
    List Request × ClientState :=
  (acc.1 ++ (stepRun acc.2 e).1, (stepRun acc.2 e).2)

/-- All requests dispatched and the final state after a list of events. -/
def traceFrom (st0 : ClientState) (evs : List UIEvent) :
    List Request × ClientState :=
  evs.foldl traceStep ([], st0)

/-- The values of all `mode` fields carried in a request body. -/
def modeValues (r : Request) : List String :=
  match r.body with
  | .json fs => (fs.filter (fun p => p.1 == "mode")).map Prod.snd
  | .form fs => (fs.filter (fun p => p.1 == "mode")).map Prod.snd
  | .empty => []

/-- Every `mode` field of the request is one of the two enum values. -/
def reqModeOk (r : Request) : Bool :=
  (modeValues r).all (fun v => v == "realtime" || v == "deep")

/-- How many `POST /session/start` calls a request list contains. -/
def startCount (l : List Request) : Nat :=
  (l.filter (fun r => r.endpoint == Endpoint.sessionStart)).length

/-- The `session_id` form field of a `/session/add/...` request. -/
def addSid (r : Request) : Option String :=
  match r.endpoint, r.body with
  | .sessionAddUrl, .form fs => fs.lookup "session_id"
  | .sessionAddName, .form fs => fs.lookup "session_id"
  | _, _ => none

/-- The session ids of all `/session/add/...` requests, in order. -/
def addSids (l : List Request) : List String := l.filterMap addSid

/-- A `/session/start` response that actually creates a session: success
carrying a non-empty id. -/
def goodStartB : Except ErrInfo String → Bool
  | .ok s => !(s == "")
  | .error _ => false

/-- An event whose (potential) session start succeeds with a non-empty id;
events that can never consult `/session/start` are unconstrained. -/
def goodEvB : UIEvent → Bool
  | .urlRun env _ => goodStartB env.startResp
  | .nameRun env _ => goodStartB env.startResp
  | .startClick env => goodStartB env.startResp
  | _ => true

/-- Trace invariant for session creation: before any session exists no start
or add request was ever made; afterwards at most one start happened and all
adds carry the (unchanged) held id. -/
def SessInv (acc : List Request × ClientState) : Prop :=
  (acc.2.sessionId = "" ∧ startCount acc.1 = 0 ∧ addSids acc.1 = []) ∨
  (acc.2.sessionId ≠ "" ∧ startCount acc.1 ≤ 1 ∧
    ∀ s ∈ addSids acc.1, s = acc.2.sessionId)

/-- Trace invariant once a session id is held: it never changes, no further
start request is made, every add uses it. -/
def PersistInv (sid0 : String) (acc : List Request × ClientState) : Prop :=
  acc.2.sessionId = sid0 ∧ startCount acc.1 = 0 ∧
  ∀ s ∈ addSids acc.1, s = sid0

/-- Trace invariant for the mode enum: the held mode is one of the two
option values and every dispatched request's `mode` fields are too. -/
def ModeInv (acc : List Request × ClientState) : Prop :=
  (acc.2.mode = "realtime" ∨ acc.2.mode = "deep") ∧
  acc.1.all reqModeOk = true

end Client

namespace Client

/-- Claim C1: for every non-null profile `data`, the `pairs` computation lists
exactly the 15 schema fields, in the fixed order Company Name, Website,
Industry, Description, Services, Address, Country, State, City, Postal Code,
Phone, Email, Social Media Links, Founders/Key People, Verification Status —
none omitted, none added — in both versions of the client. -/
theorem pairs_fixed_schema (d : Profile) :
    (pairsV1 (some d)).map Prod.fst =
      ["Company Name", "Website", "Industry", "Description", "Services",
       "Address", "Country", "State", "City", "Postal Code", "Phone", "Email",
       "Social Media Links", "Founders/Key People", "Verification Status"] ∧
    (pairsV2 (some d)).map Prod.fst =
      ["Company Name", "Website", "Industry", "Description", "Services",
       "Address", "Country", "State", "City", "Postal Code", "Phone", "Email",
       "Social Media Links", "Founders/Key People", "Verification Status"] ∧
    (pairsV1 (some d)).length = 15 ∧ (pairsV2 (some d)).length = 15 := by
  refine ⟨rfl, rfl, rfl, rfl⟩

theorem progAfter_succ (n : Nat) : progAfter (n + 1) = progTick (progAfter n) :=
  Function.iterate_succ_apply' progTick n _

theorem progAfter_sec (n : Nat) : (progAfter n).sec = (n : ℚ) / 4 := by
  induction n with
  | zero => simp [progAfter]
  | succ k ih =>
    rw [progAfter_succ]
    show (progAfter k).sec + 1 / 4 = _
    rw [ih]; push_cast; ring

theorem progAfter_p (n : Nat) :
    (progAfter n).p = ⌊min 1 ((n : ℚ) / 60) * 100⌋ := by
  cases n with
  | zero => simp [progAfter, progTick]
  | succ k =>
    rw [progAfter_succ]
    show ⌊min 1 (((progAfter k).sec + 1 / 4) / 15) * 100⌋ = _
    rw [progAfter_sec]
    have h : ((k : ℚ) / 4 + 1 / 4) / 15 = (((k + 1 : ℕ)) : ℚ) / 60 := by
      push_cast; ring
    rw [h]

theorem progAfter_idx (n : Nat) :
    (progAfter n).idx = min 3 ⌊min 1 ((n : ℚ) / 60) * 4⌋ := by
  cases n with
  | zero => simp [progAfter, progTick]
  | succ k =>
    rw [progAfter_succ]
    show min 3 ⌊min 1 (((progAfter k).sec + 1 / 4) / 15) * 4⌋ = _
    rw [progAfter_sec]
    have h : ((k : ℚ) / 4 + 1 / 4) / 15 = (((k + 1 : ℕ)) : ℚ) / 60 := by
      push_cast; ring
    rw [h]

/-- Claim C3: the progress display is a function of elapsed wall-clock ticks
only (by construction `progAfter : Nat → ProgState` takes no backend input,
so two runs with the same elapsed time show the same percentage and step);
after `n` 250ms ticks (elapsed seconds `n/4`) the percentage equals
`floor(min(1, (n/4)/15) * 100)`, it always lies between 0 and 100, the step
index lies between 0 and 3 (the last of the four fixed steps in either
version), and the bar reads 100% from 15 seconds (60 ticks) on, irrespective
of actual job progress. -/
theorem progress_wallclock_only (n : Nat) :
    (progAfter n).p = ⌊min 1 ((n : ℚ) / 4 / 15) * 100⌋ ∧
    0 ≤ (progAfter n).p ∧ (progAfter n).p ≤ 100 ∧
    0 ≤ (progAfter n).idx ∧ (progAfter n).idx ≤ 3 ∧
    stepsV1.length = 4 ∧ stepsV2.length = 4 ∧
    (progAfter (60 + n)).p = 100 := by
  have harg : (n : ℚ) / 4 / 15 = (n : ℚ) / 60 := by ring
  have h0 : (0 : ℚ) ≤ min 1 ((n : ℚ) / 60) :=
    le_min (by norm_num) (by positivity)
  have h1 : min 1 ((n : ℚ) / 60) ≤ 1 := min_le_left _ _
  refine ⟨by rw [progAfter_p, harg], ?_, ?_, ?_, ?_, rfl, rfl, ?_⟩
  · rw [progAfter_p]
    exact Int.le_floor.mpr (by exact_mod_cast mul_nonneg h0 (by norm_num))
  · rw [progAfter_p]
    have h2 : min 1 ((n : ℚ) / 60) * 100 ≤ 100 := by nlinarith
    calc ⌊min 1 ((n : ℚ) / 60) * 100⌋ ≤ ⌊(100 : ℚ)⌋ := Int.floor_le_floor h2
      _ = 100 := by norm_num
  · rw [progAfter_idx]
    refine le_min (by norm_num) (Int.le_floor.mpr ?_)
    exact_mod_cast mul_nonneg h0 (by norm_num)
  · rw [progAfter_idx]; exact min_le_left _ _
  · rw [progAfter_p]
    have hge : (1 : ℚ) ≤ ((60 + n : ℕ) : ℚ) / 60 := by
      rw [le_div_iff₀ (by norm_num)]; push_cast; linarith
    rw [min_eq_left hge]; norm_num

/-- Claim C2: the `Pair` renderer emits exactly one table row per schema field
(the rendered table's key column is exactly the schema, so 15 rows for every
profile regardless of which fields are null), and a null or absent field
value renders as the explicit placeholder cell "—" rather than being
omitted. -/
theorem pair_placeholder_and_row_count (d : Profile) (k : String) :
    (renderTableV1 d).length = 15 ∧
    (renderTableV2 d).length = 15 ∧
    (renderTableV1 d).map Prod.fst = fieldOrderV1 ∧
    (renderTableV2 d).map Prod.fst = fieldOrderV2 ∧
    PairRow k none = (k, "—") := by
  refine ⟨rfl, rfl, rfl, rfl, rfl⟩

theorem ensureSessionV1_spec (st : ClientState) (sr : Except ErrInfo String) :
    (st.sessionId ≠ "" ∧ ensureSessionV1 st sr = ([], .ok (st, st.sessionId))) ∨
    (st.sessionId = "" ∧ ∃ e, sr = .error e ∧
      ensureSessionV1 st sr = ([startReq], .error e)) ∨
    (st.sessionId = "" ∧ ∃ sid, sr = .ok sid ∧
      ensureSessionV1 st sr =
        ([startReq], .ok ({ st with sessionId := sid }, sid))) := by
  unfold ensureSessionV1
  by_cases hS : st.sessionId = ""
  · rw [if_pos hS]
    cases sr with
    | ok sid => exact Or.inr (Or.inr ⟨hS, sid, rfl, rfl⟩)
    | error e => exact Or.inr (Or.inl ⟨hS, e, rfl, rfl⟩)
  · rw [if_neg hS]
    exact Or.inl ⟨hS, rfl⟩

theorem runUrlV1_loading (st : ClientState) (env : SessEnv)
    (resp : Except ErrInfo ScrapeResp) :
    (runUrlV1 st env resp).2.loading = false := by
  obtain ⟨sr, ar, cr⟩ := env
  unfold runUrlV1
  cases hA : st.addToSession <;> simp only [hA, Bool.false_eq_true, if_false, if_true]
  · cases resp <;> rfl
  · rcases ensureSessionV1_spec (clearedStart st) sr with
      ⟨h, hE⟩ | ⟨h, e, hsr, hE⟩ | ⟨h, sid, hsr, hE⟩
    · rw [hE]
      cases ar
      · rfl
      · cases cr <;> rfl
    · rw [hE]
    · rw [hE]
      cases ar
      · rfl
      · cases cr <;> rfl

theorem runNameV1_loading (st : ClientState) (env : SessEnv)
    (resp : Except ErrInfo ScrapeResp) :
    (runNameV1 st env resp).2.loading = false := by
  obtain ⟨sr, ar, cr⟩ := env
  unfold runNameV1
  cases hA : st.addToSession <;> simp only [hA, Bool.false_eq_true, if_false, if_true]
  · cases resp <;> rfl
  · rcases ensureSessionV1_spec (clearedStart st) sr with
      ⟨h, hE⟩ | ⟨h, e, hsr, hE⟩ | ⟨h, sid, hsr, hE⟩
    · rw [hE]
      cases ar
      · rfl
      · cases cr <;> rfl
    · rw [hE]
    · rw [hE]
      cases ar
      · rfl
      · cases cr <;> rfl

theorem runUrlV1_data_none (st : ClientState) (env : SessEnv)
    (resp : Except ErrInfo ScrapeResp) (h : st.addToSession = true) :
    (runUrlV1 st env resp).2.data = none ∧
    (runUrlV1 st env resp).2.job = none ∧
    (runUrlV1 st env resp).2.bulkInfo = none := by
  obtain ⟨sr, ar, cr⟩ := env
  unfold runUrlV1
  simp only [h, if_true]
  rcases ensureSessionV1_spec (clearedStart st) sr with
      ⟨hS, hE⟩ | ⟨hS, e, hsr, hE⟩ | ⟨hS, sid, hsr, hE⟩
  · rw [hE]
    cases ar
    · exact ⟨rfl, rfl, rfl⟩
    · cases cr <;> exact ⟨rfl, rfl, rfl⟩
  · rw [hE]; exact ⟨rfl, rfl, rfl⟩
  · rw [hE]
    cases ar
    · exact ⟨rfl, rfl, rfl⟩
    · cases cr <;> exact ⟨rfl, rfl, rfl⟩

/-- Claim C4: a single-URL scrape (no session) POSTs `{url, mode}` to
`/scrape/url`; on success the `data` field of the `{job_id, data}` response
is displayed and the download link is derived from its `job_id`; a Name+Geo
scrape POSTs `{company_name, geography, mode}` (geography optional, sent as
the possibly-empty `geo` state) to `/scrape/name` and handles the response
the same way. -/
theorem scrape_request_response (st : ClientState) (env : SessEnv)
    (r : ScrapeResp) (api : String) :
    runUrlV1 { st with addToSession := false } env (.ok r) =
      ([{ method := "POST", endpoint := .scrapeUrl,
          body := .json [("url", st.url), ("mode", st.mode)] }],
       { clearedStart { st with addToSession := false } with
           data := r.data, job := some { job_id := r.job_id, data := r.data },
           loading := false }) ∧
    runNameV1 { st with addToSession := false } env (.ok r) =
      ([{ method := "POST", endpoint := .scrapeName,
          body := .json [("company_name", st.company), ("geography", st.geo),
                         ("mode", st.mode)] }],
       { clearedStart { st with addToSession := false } with
           data := r.data, job := some { job_id := r.job_id, data := r.data },
           loading := false }) ∧
    Endpoint.scrapeUrl.suffix = "/scrape/url" ∧
    Endpoint.scrapeName.suffix = "/scrape/name" ∧
    downloadHref api (runUrlV1 { st with addToSession := false } env (.ok r)).2 =
      api ++ "/download/" ++ r.job_id := by
  refine ⟨rfl, rfl, rfl, rfl, rfl⟩

/-- Claim C5: a failed scrape shows the response's `detail` (falling back to
the exception message), retains no partial profile — `data`, `job` and
`bulkInfo` are cleared at the start of the run and stay `none` on the failure
path (and throughout the session branch) — and `loading` is reset to false
on every path, success or failure. -/
theorem scrape_failure_no_partial (st : ClientState) (env : SessEnv)
    (e : ErrInfo) (resp : Except ErrInfo ScrapeResp) (d m : String) :
    (runUrlV1 { st with addToSession := false } env (.error e)).2 =
      { clearedStart { st with addToSession := false } with
          error := errMsg e, loading := false } ∧
    (runUrlV1 { st with addToSession := false } env (.error e)).2.data = none ∧
    (runUrlV1 { st with addToSession := false } env (.error e)).2.job = none ∧
    (runUrlV1 { st with addToSession := false } env (.error e)).2.bulkInfo = none ∧
    (runUrlV1 st env resp).2.loading = false ∧
    (runNameV1 st env resp).2.loading = false ∧
    (runUrlV1 { st with addToSession := true } env resp).2.data = none ∧
    (runUrlV1 { st with addToSession := true } env resp).2.job = none ∧
    (runUrlV1 { st with addToSession := true } env resp).2.bulkInfo = none ∧
    errMsg { detail := none, message := m } = m ∧
    (d ≠ "" → errMsg { detail := some d, message := m } = d) := by
  obtain ⟨h1, h2, h3⟩ := runUrlV1_data_none { st with addToSession := true } env resp rfl
  refine ⟨rfl, rfl, rfl, rfl, runUrlV1_loading st env resp,
          runNameV1_loading st env resp, h1, h2, h3, rfl, fun hd => ?_⟩
  simp [errMsg, hd]

/-- Claim C7: a session download with zero accumulated profiles still yields
a valid header-only spreadsheet artifact: exactly the header row in the
fixed field order and zero data rows (in general, one header row plus one
data row per profile, in order). -/
theorem session_empty_export (ps : List Profile) :
    serialize [] = [fieldOrderV1] ∧
    (serialize []).length = 1 ∧
    (serialize ps).length = ps.length + 1 ∧
    (serialize ps).head? = some fieldOrderV1 := by
  refine ⟨rfl, rfl, by simp [serialize], rfl⟩

/-- Claim C8: a bulk run POSTs multipart form data `file` + `mode` to
`/bulk/upload`; the `{job_id, rows, errors}` response is stored whole, the
results line reports the processed row count from `rows` and the error count
from `errors.length` (it depends on nothing else), and the consolidated
download link is derived from the returned `job_id`. -/
theorem bulk_upload_contract (st : ClientState) (f : String) (r : BulkInfo)
    (api : String) (b b' : BulkInfo) :
    runBulkV1 { st with file := some f } (.ok r) =
      ([{ method := "POST", endpoint := .bulkUpload,
          body := .form [("file", f), ("mode", st.mode)] }],
       { clearedStart { st with file := some f } with
           bulkInfo := some r,
           job := some { job_id := r.job_id, data := none },
           loading := false }) ∧
    Endpoint.bulkUpload.suffix = "/bulk/upload" ∧
    downloadHref api (runBulkV1 { st with file := some f } (.ok r)).2 =
      api ++ "/download/" ++ r.job_id ∧
    (b.rows = b'.rows → b.errors.length = b'.errors.length →
      bulkSummary b = bulkSummary b') := by
  refine ⟨rfl, rfl, rfl, fun h1 h2 => ?_⟩
  simp [bulkSummary, h1, h2]

theorem startCount_append (a b : List Request) :
    startCount (a ++ b) = startCount a + startCount b := by
  simp [startCount, List.filter_append]

theorem addSids_append (a b : List Request) :
    addSids (a ++ b) = addSids a ++ addSids b := by
  simp [addSids]

theorem runUrlV1_session (st : ClientState) (env : SessEnv)
    (resp : Except ErrInfo ScrapeResp) :
    (st.sessionId ≠ "" →
      (runUrlV1 st env resp).2.sessionId = st.sessionId ∧
      startCount (runUrlV1 st env resp).1 = 0 ∧
      ∀ s ∈ addSids (runUrlV1 st env resp).1, s = st.sessionId) ∧
    (st.sessionId = "" → goodStartB env.startResp = true →
      ((runUrlV1 st env resp).2.sessionId = "" ∧
        startCount (runUrlV1 st env resp).1 = 0 ∧
        addSids (runUrlV1 st env resp).1 = []) ∨
      ((runUrlV1 st env resp).2.sessionId ≠ "" ∧
        startCount (runUrlV1 st env resp).1 ≤ 1 ∧
        ∀ s ∈ addSids (runUrlV1 st env resp).1,
          s = (runUrlV1 st env resp).2.sessionId)) := by
  obtain ⟨sr, ar, cr⟩ := env
  unfold runUrlV1
  cases hA : st.addToSession <;>
    simp only [hA, Bool.false_eq_true, if_false, if_true]
  · constructor
    · intro h
      cases resp <;>
        exact ⟨rfl, rfl, by intro s hs; simp [addSids, addSid] at hs⟩
    · intro h _
      cases resp <;> exact Or.inl ⟨h, rfl, rfl⟩
  · rcases ensureSessionV1_spec (clearedStart st) sr with
      ⟨hS, hE⟩ | ⟨hS, e, hsr, hE⟩ | ⟨hS, sid, hsr, hE⟩
    · rw [hE]
      constructor
      · intro h
        cases ar with
        | error e2 =>
          exact ⟨rfl, rfl, by
            intro s hs
            simp [addSids, addSid, List.lookup, startReq, refreshReq] at hs
            subst hs; rfl⟩
        | ok u =>
          cases cr <;>
            exact ⟨rfl, rfl, by
              intro s hs
              simp [addSids, addSid, List.lookup, startReq, refreshReq] at hs
              subst hs; rfl⟩
      · intro h _
        exact absurd h hS
    · rw [hE]
      constructor
      · intro h
        exact absurd hS h
      · intro h hg
        rw [hsr] at hg
        simp [goodStartB] at hg
    · rw [hE]
      constructor
      · intro h
        exact absurd hS h
      · intro _ hg
        rw [hsr] at hg
        have hsid : ¬ sid = "" := by simpa [goodStartB] using hg
        right
        cases ar with
        | error e2 =>
          exact ⟨hsid, Nat.le.refl, by
            intro s hs
            simp [addSids, addSid, List.lookup, startReq, refreshReq] at hs
            subst hs; rfl⟩
        | ok u =>
          cases cr <;>
            exact ⟨hsid, Nat.le.refl, by
              intro s hs
              simp [addSids, addSid, List.lookup, startReq, refreshReq] at hs
              subst hs; rfl⟩

theorem runNameV1_session (st : ClientState) (env : SessEnv)
    (resp : Except ErrInfo ScrapeResp) :
    (st.sessionId ≠ "" →
      (runNameV1 st env resp).2.sessionId = st.sessionId ∧
      startCount (runNameV1 st env resp).1 = 0 ∧
      ∀ s ∈ addSids (runNameV1 st env resp).1, s = st.sessionId) ∧
    (st.sessionId = "" → goodStartB env.startResp = true →
      ((runNameV1 st env resp).2.sessionId = "" ∧
        startCount (runNameV1 st env resp).1 = 0 ∧
        addSids (runNameV1 st env resp).1 = []) ∨
      ((runNameV1 st env resp).2.sessionId ≠ "" ∧
        startCount (runNameV1 st env resp).1 ≤ 1 ∧
        ∀ s ∈ addSids (runNameV1 st env resp).1,
          s = (runNameV1 st env resp).2.sessionId)) := by
  obtain ⟨sr, ar, cr⟩ := env
  unfold runNameV1
  cases hA : st.addToSession <;>
    simp only [hA, Bool.false_eq_true, if_false, if_true]
  · constructor
    · intro h
      cases resp <;>
        exact ⟨rfl, rfl, by intro s hs; simp [addSids, addSid] at hs⟩
    · intro h _
      cases resp <;> exact Or.inl ⟨h, rfl, rfl⟩
  · rcases ensureSessionV1_spec (clearedStart st) sr with
      ⟨hS, hE⟩ | ⟨hS, e, hsr, hE⟩ | ⟨hS, sid, hsr, hE⟩
    · rw [hE]
      constructor
      · intro h
        cases ar with
        | error e2 =>
          exact ⟨rfl, rfl, by
            intro s hs
            simp [addSids, addSid, List.lookup, startReq, refreshReq] at hs
            subst hs; rfl⟩
        | ok u =>
          cases cr <;>
            exact ⟨rfl, rfl, by
              intro s hs
              simp [addSids, addSid, List.lookup, startReq, refreshReq] at hs
              subst hs; rfl⟩
      · intro h _
        exact absurd h hS
    · rw [hE]
      constructor
      · intro h
        exact absurd hS h
      · intro h hg
        rw [hsr] at hg
        simp [goodStartB] at hg
    · rw [hE]
      constructor
      · intro h
        exact absurd hS h
      · intro _ hg
        rw [hsr] at hg
        have hsid : ¬ sid = "" := by simpa [goodStartB] using hg
        right
        cases ar with
        | error e2 =>
          exact ⟨hsid, Nat.le.refl, by
            intro s hs
            simp [addSids, addSid, List.lookup, startReq, refreshReq] at hs
            subst hs; rfl⟩
        | ok u =>
          cases cr <;>
            exact ⟨hsid, Nat.le.refl, by
              intro s hs
              simp [addSids, addSid, List.lookup, startReq, refreshReq] at hs
              subst hs; rfl⟩

theorem runBulkV1_session (st : ClientState) (resp : Except ErrInfo BulkInfo) :
    (runBulkV1 st resp).2.sessionId = st.sessionId ∧
    startCount (runBulkV1 st resp).1 = 0 ∧
    addSids (runBulkV1 st resp).1 = [] := by
  unfold runBulkV1
  cases hf : st.file with
  | none => exact ⟨rfl, rfl, rfl⟩
  | some f => cases resp <;> exact ⟨rfl, rfl, rfl⟩

theorem startClickV1_session (st : ClientState) (env : SessEnv) :
    (st.sessionId ≠ "" →
      (startClickV1 st env).2.sessionId = st.sessionId ∧
      startCount (startClickV1 st env).1 = 0 ∧
      addSids (startClickV1 st env).1 = []) ∧
    (st.sessionId = "" → goodStartB env.startResp = true →
      (startClickV1 st env).2.sessionId ≠ "" ∧
      startCount (startClickV1 st env).1 ≤ 1 ∧
      addSids (startClickV1 st env).1 = []) := by
  obtain ⟨sr, ar, cr⟩ := env
  unfold startClickV1
  rcases ensureSessionV1_spec st sr with
      ⟨hS, hE⟩ | ⟨hS, e, hsr, hE⟩ | ⟨hS, sid, hsr, hE⟩ <;> rw [hE]
  · constructor
    · intro h
      cases cr <;> exact ⟨rfl, rfl, rfl⟩
    · intro h _
      exact absurd h hS
  · constructor
    · intro h
      exact absurd hS h
    · intro h hg
      rw [hsr] at hg
      simp [goodStartB] at hg
  · constructor
    · intro h
      exact absurd hS h
    · intro _ hg
      rw [hsr] at hg
      have hsid : ¬ sid = "" := by simpa [goodStartB] using hg
      cases cr <;> exact ⟨hsid, Nat.le.refl, rfl⟩

theorem stepRun_persist (st : ClientState) (e : UIEvent) (h : st.sessionId ≠ "") :
    (stepRun st e).2.sessionId = st.sessionId ∧
    startCount (stepRun st e).1 = 0 ∧
    ∀ s ∈ addSids (stepRun st e).1, s = st.sessionId := by
  cases e with
  | pickMode i => exact ⟨rfl, rfl, fun s hs => absurd hs (List.not_mem_nil s)⟩
  | pickMethod i => exact ⟨rfl, rfl, fun s hs => absurd hs (List.not_mem_nil s)⟩
  | setUrl s => exact ⟨rfl, rfl, fun s hs => absurd hs (List.not_mem_nil s)⟩
  | setCompany s => exact ⟨rfl, rfl, fun s hs => absurd hs (List.not_mem_nil s)⟩
  | setGeo s => exact ⟨rfl, rfl, fun s hs => absurd hs (List.not_mem_nil s)⟩
  | setFile f => exact ⟨rfl, rfl, fun s hs => absurd hs (List.not_mem_nil s)⟩
  | setAddToSession b => exact ⟨rfl, rfl, fun s hs => absurd hs (List.not_mem_nil s)⟩
  | urlRun env resp => exact (runUrlV1_session st env resp).1 h
  | nameRun env resp => exact (runNameV1_session st env resp).1 h
  | bulkRun resp =>
    obtain ⟨h1, h2, h3⟩ := runBulkV1_session st resp
    refine ⟨h1, h2, fun s hs => ?_⟩
    have hs2 : s ∈ addSids (runBulkV1 st resp).1 := hs
    rw [h3] at hs2
    cases hs2
  | startClick env =>
    obtain ⟨h1, h2, h3⟩ := (startClickV1_session st env).1 h
    refine ⟨h1, h2, fun s hs => ?_⟩
    have hs2 : s ∈ addSids (startClickV1 st env).1 := hs
    rw [h3] at hs2
    cases hs2

theorem stepRun_create (st : ClientState) (e : UIEvent) (h : st.sessionId = "")
    (hg : goodEvB e = true) :
    ((stepRun st e).2.sessionId = "" ∧ startCount (stepRun st e).1 = 0 ∧
      addSids (stepRun st e).1 = []) ∨
    ((stepRun st e).2.sessionId ≠ "" ∧ startCount (stepRun st e).1 ≤ 1 ∧
      ∀ s ∈ addSids (stepRun st e).1, s = (stepRun st e).2.sessionId) := by
  cases e with
  | pickMode i => exact Or.inl ⟨h, rfl, rfl⟩
  | pickMethod i => exact Or.inl ⟨h, rfl, rfl⟩
  | setUrl s => exact Or.inl ⟨h, rfl, rfl⟩
  | setCompany s => exact Or.inl ⟨h, rfl, rfl⟩
  | setGeo s => exact Or.inl ⟨h, rfl, rfl⟩
  | setFile f => exact Or.inl ⟨h, rfl, rfl⟩
  | setAddToSession b => exact Or.inl ⟨h, rfl, rfl⟩
  | urlRun env resp => exact (runUrlV1_session st env resp).2 h hg
  | nameRun env resp => exact (runNameV1_session st env resp).2 h hg
  | bulkRun resp =>
    obtain ⟨h1, h2, h3⟩ := runBulkV1_session st resp
    exact Or.inl ⟨h1.trans h, h2, h3⟩
  | startClick env =>
    obtain ⟨h1, h2, h3⟩ := (startClickV1_session st env).2 h hg
    refine Or.inr ⟨h1, h2, fun s hs => ?_⟩
    have hs2 : s ∈ addSids (startClickV1 st env).1 := hs
    rw [h3] at hs2
    cases hs2

theorem traceStep_persist (sid0 : String) (acc : List Request × ClientState)
    (e : UIEvent) (h0 : sid0 ≠ "") (hI : PersistInv sid0 acc) :
    PersistInv sid0 (traceStep acc e) := by
  obtain ⟨h1, h2, h3⟩ := hI
  have hs : acc.2.sessionId ≠ "" := by rw [h1]; exact h0
  obtain ⟨p1, p2, p3⟩ := stepRun_persist acc.2 e hs
  refine ⟨?_, ?_, ?_⟩
  · show (stepRun acc.2 e).2.sessionId = sid0
    rw [p1, h1]
  · show startCount (acc.1 ++ (stepRun acc.2 e).1) = 0
    rw [startCount_append, h2, p2]
  · intro s hmem
    have : s ∈ addSids acc.1 ++ addSids (stepRun acc.2 e).1 := by
      rw [← addSids_append]; exact hmem
    rcases List.mem_append.mp this with hm | hm
    · exact h3 s hm
    · exact (p3 s hm).trans h1

theorem traceStep_sessInv (acc : List Request × ClientState) (e : UIEvent)
    (hg : goodEvB e = true) (hI : SessInv acc) :
    SessInv (traceStep acc e) := by
  rcases hI with ⟨h1, h2, h3⟩ | ⟨h1, h2, h3⟩
  · rcases stepRun_create acc.2 e h1 hg with ⟨p1, p2, p3⟩ | ⟨p1, p2, p3⟩
    · left
      refine ⟨p1, ?_, ?_⟩
      · show startCount (acc.1 ++ (stepRun acc.2 e).1) = 0
        rw [startCount_append, h2, p2]
      · show addSids (acc.1 ++ (stepRun acc.2 e).1) = []
        rw [addSids_append, h3, p3]; rfl
    · right
      refine ⟨p1, ?_, ?_⟩
      · show startCount (acc.1 ++ (stepRun acc.2 e).1) ≤ 1
        rw [startCount_append, h2]; simpa using p2
      · intro s hmem
        have : s ∈ addSids acc.1 ++ addSids (stepRun acc.2 e).1 := by
          rw [← addSids_append]; exact hmem
        rw [h3] at this
        exact p3 s (by simpa using this)
  · obtain ⟨p1, p2, p3⟩ := stepRun_persist acc.2 e h1
    right
    refine ⟨?_, ?_, ?_⟩
    · show (stepRun acc.2 e).2.sessionId ≠ ""
      rw [p1]; exact h1
    · show startCount (acc.1 ++ (stepRun acc.2 e).1) ≤ 1
      rw [startCount_append, p2]; simpa using h2
    · intro s hmem
      have : s ∈ addSids acc.1 ++ addSids (stepRun acc.2 e).1 := by
        rw [← addSids_append]; exact hmem
      show s = (stepRun acc.2 e).2.sessionId
      rw [p1]
      rcases List.mem_append.mp this with hm | hm
      · exact h3 s hm
      · exact p3 s hm

theorem foldl_persist (sid0 : String) (evs : List UIEvent)
    (acc : List Request × ClientState) (h0 : sid0 ≠ "")
    (hI : PersistInv sid0 acc) :
    PersistInv sid0 (evs.foldl traceStep acc) := by
  induction evs generalizing acc with
  | nil => exact hI
  | cons e es ih => exact ih _ (traceStep_persist sid0 acc e h0 hI)

theorem foldl_sessInv (evs : List UIEvent) (acc : List Request × ClientState)
    (hg : ∀ e ∈ evs, goodEvB e = true) (hI : SessInv acc) :
    SessInv (evs.foldl traceStep acc) := by
  induction evs generalizing acc with
  | nil => exact hI
  | cons e es ih =>
    exact ih _ (fun x hx => hg x (List.mem_cons_of_mem _ hx))
      (traceStep_sessInv acc e (hg e (List.mem_cons_self _ _)) hI)

/-- Claim C6: session creation is idempotent at the client — `ensureSession`
returns a held (non-empty) `session_id` with no network call and posts to
`/session/start` only when none is held; consequently once an id is held a
trace makes no further start call and every `/session/add` request carries
exactly that id, and from a fresh page (empty id), provided each consulted
start response succeeds with a non-empty id, a whole trace contains at most
one session-start call and all its adds go to the one held session. -/
theorem session_creation_idempotent (st : ClientState)
    (sr : Except ErrInfo String) (evs evs2 : List UIEvent)
    (h : st.sessionId ≠ "") (hg : ∀ e ∈ evs2, goodEvB e = true) :
    ensureSessionV1 st sr = ([], .ok (st, st.sessionId)) ∧
    startCount (traceFrom st evs).1 = 0 ∧
    (∀ s ∈ addSids (traceFrom st evs).1, s = st.sessionId) ∧
    startCount (traceFrom initState evs2).1 ≤ 1 ∧
    (∀ s ∈ addSids (traceFrom initState evs2).1,
      s = (traceFrom initState evs2).2.sessionId) := by
  have e1 : ensureSessionV1 st sr = ([], .ok (st, st.sessionId)) := by
    unfold ensureSessionV1
    rw [if_neg h]
  have hp := foldl_persist st.sessionId evs ([], st) h
    ⟨rfl, rfl, fun s hs => absurd hs (List.not_mem_nil s)⟩
  have hsv := foldl_sessInv evs2 ([], initState) hg (Or.inl ⟨rfl, rfl, rfl⟩)
  obtain ⟨q1, q2, q3⟩ := hp
  refine ⟨e1, q2, q3, ?_, ?_⟩
  · rcases hsv with ⟨_, h2, _⟩ | ⟨_, h2, _⟩
    · rw [show startCount (traceFrom initState evs2).1 =
          startCount (evs2.foldl traceStep ([], initState)).1 from rfl, h2]
      exact Nat.zero_le 1
    · exact h2
  · rcases hsv with ⟨_, _, h3⟩ | ⟨_, _, h3⟩
    · intro s hs
      rw [show addSids (traceFrom initState evs2).1 =
          addSids (evs2.foldl traceStep ([], initState)).1 from rfl, h3] at hs
      cases hs
    · exact h3

theorem runUrlV1_modeOk (st : ClientState) (env : SessEnv)
    (resp : Except ErrInfo ScrapeResp)
    (h : st.mode = "realtime" ∨ st.mode = "deep") :
    ((runUrlV1 st env resp).2.mode = "realtime" ∨
      (runUrlV1 st env resp).2.mode = "deep") ∧
    (runUrlV1 st env resp).1.all reqModeOk = true := by
  obtain ⟨sr, ar, cr⟩ := env
  unfold runUrlV1
  cases hA : st.addToSession <;>
    simp only [hA, Bool.false_eq_true, if_false, if_true]
  · cases resp <;>
      exact ⟨h, by rcases h with h | h <;> simp [reqModeOk, modeValues, h]⟩
  · rcases ensureSessionV1_spec (clearedStart st) sr with
      ⟨hS, hE⟩ | ⟨hS, e, hsr, hE⟩ | ⟨hS, sid, hsr, hE⟩ <;> rw [hE]
    · cases ar with
      | error e2 =>
        exact ⟨h, by rcases h with h | h <;>
          simp [reqModeOk, modeValues, startReq, refreshReq, h]⟩
      | ok u =>
        cases cr <;>
          exact ⟨h, by rcases h with h | h <;>
            simp [reqModeOk, modeValues, startReq, refreshReq, h]⟩
    · exact ⟨h, by simp [reqModeOk, modeValues, startReq]⟩
    · cases ar with
      | error e2 =>
        exact ⟨h, by rcases h with h | h <;>
          simp [reqModeOk, modeValues, startReq, refreshReq, h]⟩
      | ok u =>
        cases cr <;>
          exact ⟨h, by rcases h with h | h <;>
            simp [reqModeOk, modeValues, startReq, refreshReq, h]⟩

theorem runNameV1_modeOk (st : ClientState) (env : SessEnv)
    (resp : Except ErrInfo ScrapeResp)
    (h : st.mode = "realtime" ∨ st.mode = "deep") :
    ((runNameV1 st env resp).2.mode = "realtime" ∨
      (runNameV1 st env resp).2.mode = "deep") ∧
    (runNameV1 st env resp).1.all reqModeOk = true := by
  obtain ⟨sr, ar, cr⟩ := env
  unfold runNameV1
  cases hA : st.addToSession <;>
    simp only [hA, Bool.false_eq_true, if_false, if_true]
  · cases resp <;>
      exact ⟨h, by rcases h with h | h <;> simp [reqModeOk, modeValues, h]⟩
  · rcases ensureSessionV1_spec (clearedStart st) sr with
      ⟨hS, hE⟩ | ⟨hS, e, hsr, hE⟩ | ⟨hS, sid, hsr, hE⟩ <;> rw [hE]
    · cases ar with
      | error e2 =>
        exact ⟨h, by rcases h with h | h <;>
          simp [reqModeOk, modeValues, startReq, refreshReq, h]⟩
      | ok u =>
        cases cr <;>
          exact ⟨h, by rcases h with h | h <;>
            simp [reqModeOk, modeValues, startReq, refreshReq, h]⟩
    · exact ⟨h, by simp [reqModeOk, modeValues, startReq]⟩
    · cases ar with
      | error e2 =>
        exact ⟨h, by rcases h with h | h <;>
          simp [reqModeOk, modeValues, startReq, refreshReq, h]⟩
      | ok u =>
        cases cr <;>
          exact ⟨h, by rcases h with h | h <;>
            simp [reqModeOk, modeValues, startReq, refreshReq, h]⟩

theorem runBulkV1_modeOk (st : ClientState) (resp : Except ErrInfo BulkInfo)
    (h : st.mode = "realtime" ∨ st.mode = "deep") :
    ((runBulkV1 st resp).2.mode = "realtime" ∨
      (runBulkV1 st resp).2.mode = "deep") ∧
    (runBulkV1 st resp).1.all reqModeOk = true := by
  unfold runBulkV1
  cases hf : st.file with
  | none => exact ⟨h, rfl⟩
  | some f =>
    cases resp <;>
      exact ⟨h, by rcases h with h | h <;> simp [reqModeOk, modeValues, h]⟩

theorem startClickV1_modeOk (st : ClientState) (env : SessEnv)
    (h : st.mode = "realtime" ∨ st.mode = "deep") :
    ((startClickV1 st env).2.mode = "realtime" ∨
      (startClickV1 st env).2.mode = "deep") ∧
    (startClickV1 st env).1.all reqModeOk = true := by
  obtain ⟨sr, ar, cr⟩ := env
  unfold startClickV1
  rcases ensureSessionV1_spec st sr with
      ⟨hS, hE⟩ | ⟨hS, e, hsr, hE⟩ | ⟨hS, sid, hsr, hE⟩ <;> rw [hE]
  · cases cr <;>
      exact ⟨h, by simp [reqModeOk, modeValues, startReq, refreshReq]⟩
  · exact ⟨h, by simp [reqModeOk, modeValues, startReq]⟩
  · cases cr <;>
      exact ⟨h, by simp [reqModeOk, modeValues, startReq, refreshReq]⟩

theorem stepRun_mode (st : ClientState) (e : UIEvent)
    (h : st.mode = "realtime" ∨ st.mode = "deep") :
    ((stepRun st e).2.mode = "realtime" ∨ (stepRun st e).2.mode = "deep") ∧
    (stepRun st e).1.all reqModeOk = true := by
  cases e with
  | pickMode i =>
    refine ⟨?_, rfl⟩
    fin_cases i
    · exact Or.inl rfl
    · exact Or.inr rfl
  | pickMethod i => exact ⟨h, rfl⟩
  | setUrl s => exact ⟨h, rfl⟩
  | setCompany s => exact ⟨h, rfl⟩
  | setGeo s => exact ⟨h, rfl⟩
  | setFile f => exact ⟨h, rfl⟩
  | setAddToSession b => exact ⟨h, rfl⟩
  | urlRun env resp => exact runUrlV1_modeOk st env resp h
  | nameRun env resp => exact runNameV1_modeOk st env resp h
  | bulkRun resp => exact runBulkV1_modeOk st resp h
  | startClick env => exact startClickV1_modeOk st env h

theorem traceStep_modeInv (acc : List Request × ClientState) (e : UIEvent)
    (hI : ModeInv acc) : ModeInv (traceStep acc e) := by
  obtain ⟨h1, h2⟩ := hI
  obtain ⟨p1, p2⟩ := stepRun_mode acc.2 e h1
  refine ⟨p1, ?_⟩
  show (acc.1 ++ (stepRun acc.2 e).1).all reqModeOk = true
  rw [List.all_append, h2, p2]
  rfl

theorem foldl_modeInv (evs : List UIEvent) (acc : List Request × ClientState)
    (hI : ModeInv acc) : ModeInv (evs.foldl traceStep acc) := by
  induction evs generalizing acc with
  | nil => exact hI
  | cons e es ih => exact ih _ (traceStep_modeInv acc e hI)

/-- Claim C9: the `mode` state is initialised to `"realtime"`, every mode
selector offers exactly the option values `"realtime"` and `"deep"`, and in
every request the client ever dispatches from the initial state — single
scrape, bulk upload or session add — each `mode` field carried in the body
is one of exactly these two enum values. -/
theorem mode_field_enum (evs : List UIEvent) (r : Request)
    (hr : r ∈ (traceFrom initState evs).1) :
    initState.mode = "realtime" ∧
    modeOptions = ["realtime", "deep"] ∧
    ((traceFrom initState evs).2.mode = "realtime" ∨
      (traceFrom initState evs).2.mode = "deep") ∧
    reqModeOk r = true := by
  have hM := foldl_modeInv evs ([], initState) ⟨Or.inl rfl, rfl⟩
  refine ⟨rfl, rfl, hM.1, ?_⟩
  have h2 := hM.2
  rw [List.all_eq_true] at h2
  exact h2 r hr

/-- Claim C10: on the non-session paths the two client versions are
behaviourally equivalent — with `addToSession` false, V1's `runUrl`,
`runName` and `runBulk` dispatch the same requests and compute the same
successor state as V2's, for every state and every response. -/
theorem versions_equivalent (st : ClientState) (env : SessEnv)
    (rs rn : Except ErrInfo ScrapeResp) (rb : Except ErrInfo BulkInfo) :
    runUrlV1 { st with addToSession := false } env rs =
      runUrlV2 { st with addToSession := false } rs ∧
    runNameV1 { st with addToSession := false } env rn =
      runNameV2 { st with addToSession := false } rn ∧
    runBulkV1 st rb = runBulkV2 st rb := by
  refine ⟨?_, ?_, ?_⟩
  · cases rs <;> rfl
  · cases rn <;> rfl
  · rcases hf : st.file with _ | f <;> cases rb <;>
      simp [runBulkV1, runBulkV2, clearedStart, hf]

theorem scrape_failure_no_partial_witness :
    (runUrlV1 { initState with addToSession := false }
        { startResp := .ok "S", addResp := .ok (), countResp := .ok none }
        (.error { detail := some "boom", message := "msg" })).2.data = none ∧
    errMsg { detail := some "boom", message := "msg" } = "boom" := by
  obtain ⟨a1, a2, a3, a4, a5, a6, a7, a8, a9, a10, a11⟩ :=
    scrape_failure_no_partial initState
      { startResp := .ok "S", addResp := .ok (), countResp := .ok none }
      { detail := some "boom", message := "msg" }
      (.error { detail := some "boom", message := "msg" }) "boom" "msg"
  exact ⟨a2, a11 (by decide)⟩

theorem bulk_upload_contract_witness :
    bulkSummary { job_id := "a", rows := 2, errors := [] } =
      bulkSummary { job_id := "b", rows := 2, errors := [] } := by
  have h := bulk_upload_contract initState "f.csv"
    { job_id := "j", rows := 2, errors := [] } "api"
    { job_id := "a", rows := 2, errors := [] }
    { job_id := "b", rows := 2, errors := [] }
  exact h.2.2.2 rfl rfl

theorem session_creation_idempotent_witness :
    ensureSessionV1 { initState with sessionId := "S" } (.ok "T") =
      ([], .ok ({ initState with sessionId := "S" }, "S")) ∧
    startCount (traceFrom { initState with sessionId := "S" }
      [UIEvent.urlRun
        { startResp := .ok "T", addResp := .ok (), countResp := .ok none }
        (.error { detail := none, message := "m" })]).1 = 0 ∧
    startCount (traceFrom initState
      [UIEvent.setAddToSession true,
       UIEvent.urlRun
        { startResp := .ok "A", addResp := .ok (), countResp := .ok (some 1) }
        (.error { detail := none, message := "m" })]).1 ≤ 1 := by
  have h := session_creation_idempotent { initState with sessionId := "S" }
    (.ok "T")
    [UIEvent.urlRun
      { startResp := .ok "T", addResp := .ok (), countResp := .ok none }
      (.error { detail := none, message := "m" })]
    [UIEvent.setAddToSession true,
     UIEvent.urlRun
      { startResp := .ok "A", addResp := .ok (), countResp := .ok (some 1) }
      (.error { detail := none, message := "m" })]
    (by decide) (by decide)
  exact ⟨h.1, h.2.1, h.2.2.2.1⟩

theorem mode_field_enum_witness :
    initState.mode = "realtime" ∧
    modeOptions = ["realtime", "deep"] ∧
    ((traceFrom initState
        [UIEvent.urlRun
          { startResp := .ok "S", addResp := .ok (), countResp := .ok none }
          (.error { detail := none, message := "m" })]).2.mode = "realtime" ∨
      (traceFrom initState
        [UIEvent.urlRun
          { startResp := .ok "S", addResp := .ok (), countResp := .ok none }
          (.error { detail := none, message := "m" })]).2.mode = "deep") ∧
    reqModeOk { method := "POST", endpoint := .scrapeUrl,
                body := .json [("url", ""), ("mode", "realtime")] } = true :=
  mode_field_enum
    [UIEvent.urlRun
      { startResp := .ok "S", addResp := .ok (), countResp := .ok none }
      (.error { detail := none, message := "m" })]
    { method := "POST", endpoint := .scrapeUrl,
      body := .json [("url", ""), ("mode", "realtime")] }
    (by decide)

end Client
